import Mathlib

/-!
Shallow embedding of the FormatConverter conversion-orchestration layer
(src/src/converters/base_converter.py, audio_converter.py, video_converter.py,
image_converter.py, src/src/routes/api.py, src/src/utils/file_utils.py,
src/src/config.py).

The filesystem is modelled as a map from paths to file sizes (regular,
readable files only; directory structure and permission bits are abstracted
into explicit `readable` / `writableOut` predicates).  The external ffmpeg
process is modelled as an environment: a function from the argument vector to
an outcome (exit code, stdout, stderr, and the size of the file the tool
wrote to the trailing output path, if any).  Every converter operation is a
state-passing function returning its result value, the final filesystem, and
the trace of external-process invocations performed.
-/

namespace FormatConverter

/-- Abstract filesystem: `files p = some n` means a regular file of `n` bytes
exists at path `p`.  `readable` and `writableOut` abstract the
`os.access` / test-create checks of `base_converter.py`. -/
structure FS where
  files : String → Option Nat
  readable : String → Bool
  writableOut : String → Bool

/-- Write (create or overwrite) a file of size `n` at path `p`. -/
def FS.write (fs : FS) (p : String) (n : Nat) : FS :=
  { fs with files := fun q => if q = p then some n else fs.files q }

/-- Remove the file at path `p` (no-op on the map if absent, matching
`os.remove` guarded by `os.path.exists`). -/
def FS.remove (fs : FS) (p : String) : FS :=
  { fs with files := fun q => if q = p then none else fs.files q }

@[simp] theorem FS.write_files_self (fs : FS) (p : String) (n : Nat) :
    (fs.write p n).files p = some n := by
  simp [FS.write]

@[simp] theorem FS.remove_files_self (fs : FS) (p : String) :
    (fs.remove p).files p = none := by
  simp [FS.remove]

theorem FS.write_files_other (fs : FS) (p q : String) (n : Nat) (h : q ≠ p) :
    (fs.write p n).files q = fs.files q := by
  simp [FS.write, h]

theorem FS.remove_files_other (fs : FS) (p q : String) (h : q ≠ p) :
    (fs.remove p).files q = fs.files q := by
  simp [FS.remove, h]

/-- Outcome of one external-process invocation (`subprocess.run` inside
`BaseConverter.run_ffmpeg_command`): the process completed with an exit code,
possibly writing `written` bytes to the output path; or the timeout expired
(`subprocess.TimeoutExpired`), possibly leaving a partial output file; or some
other exception was raised by the attempt to run the process. -/
inductive RunOutcome where
  | completed (exitCode : Nat) (stdout stderr : String) (written : Option Nat)
  | timedOut (written : Option Nat)
  | excOther (msg : String)
deriving DecidableEq

/-- The external-tool environment: what the tool does for each argument
vector.  Deterministic per command; theorems quantify over all environments. -/
def Env : Type := List String → RunOutcome

/-- The output path of a built command: every command builder in the source
appends the output path as the last argument, and ffmpeg writes there. -/
def outputOf (cmd : List String) : String := cmd.getLastD ""

/-- `BaseConverter.run_ffmpeg_command` (base_converter.py lines 108-144):
runs the command, returns `(success, stdout, stderr)`; success is decided by
the exit code alone; a timeout or any other exception is caught and reported
as a failure tuple, never raised (modelled by totality of this function). -/
def runFFmpegCommand (env : Env) (cmd : List String) (timeout : Nat) (fs : FS) :
    (Bool × String × String) × FS :=
  match env cmd with
  | .completed exitCode stdout stderr written =>
      let fs' := match written with
        | some n => fs.write (outputOf cmd) n
        | none => fs
      ((exitCode == 0, stdout, stderr), fs')
  | .timedOut written =>
      let fs' := match written with
        | some n => fs.write (outputOf cmd) n
        | none => fs
      ((false, "", "FFmpeg command timed out after " ++ toString timeout ++ " seconds"), fs')
  | .excOther msg =>
      ((false, "", "Error running FFmpeg command: " ++ msg), fs)

/-- `BaseConverter.cleanup_on_error` (base_converter.py lines 146-158):
remove the output file if it exists; exceptions are swallowed. -/
def cleanupOnError (outputPath : String) (fs : FS) : FS :=
  fs.remove outputPath

/-- `BaseConverter.validate_input_file` (base_converter.py lines 55-74).
The model's `files` map holds regular files only, so the `os.path.isfile`
branch coincides with existence; readability is the `readable` predicate. -/
def validateInputFile (inputPath : String) (fs : FS) : Bool × String :=
  if (fs.files inputPath).isNone then
    (false, "Input file not found: " ++ inputPath)
  else if ¬ fs.readable inputPath then
    (false, "Cannot read input file: " ++ inputPath)
  else
    (true, "")

/-- `BaseConverter.validate_output_path` (base_converter.py lines 76-106).
The source creates any missing directory, then either checks writability of
an existing file or test-creates and removes the file; either way the
filesystem is unchanged on return and the verdict is a writability check,
abstracted into `writableOut`. -/
def validateOutputPath (outputPath : String) (fs : FS) : Bool × String :=
  if ¬ fs.writableOut outputPath then
    (false, "Cannot write to output path: " ++ outputPath)
  else
    (true, "")

/-! ### Configuration (src/src/config.py) -/

/-- `Config.AUDIO_QUALITY_PRESETS.get(quality, '192k')` (config.py lines
32-36 together with the `.get` default used at its call sites). -/
def audioQualityPresets (quality : String) : String :=
  if quality = "low" then "128k"
  else if quality = "medium" then "192k"
  else if quality = "high" then "320k"
  else "192k"

/-- `Config.VIDEO_QUALITY_PRESETS.get(quality, '20')` (config.py lines
38-42 together with the `.get` default used at its call site). -/
def videoQualityPresets (quality : String) : String :=
  if quality = "low" then "23"
  else if quality = "medium" then "20"
  else if quality = "high" then "18"
  else "20"

/-! ### Audio converter (src/src/converters/audio_converter.py) -/

/-- Static allow-list of audio output formats (audio_converter.py line 18). -/
def audioSupportedFormats : List String := ["mp3", "wav", "flac", "aac", "ogg", "m4a"]

/-- The per-format codec/bitrate argument block.  This if/elif chain appears
verbatim in `AudioConverter._build_ffmpeg_command` (lines 102-113) and again
in `AudioConverter.extract_audio_from_video` (lines 146-157); it is factored
here once. -/
def audioCodecArgs (targetFormat bitrate : String) : List String :=
  if targetFormat = "mp3" then ["-c:a", "libmp3lame", "-b:a", bitrate]
  else if targetFormat = "wav" then ["-c:a", "pcm_s16le"]
  else if targetFormat = "flac" then ["-c:a", "flac"]
  else if targetFormat = "aac" then ["-c:a", "aac", "-b:a", bitrate]
  else if targetFormat = "ogg" then ["-c:a", "libvorbis", "-b:a", bitrate]
  else if targetFormat = "m4a" then ["-c:a", "aac", "-b:a", bitrate]
  else []

/-- The `**kwargs` accepted by `AudioConverter._build_ffmpeg_command`. -/
structure AudioKwargs where
  bitrate : Option String := none
  sampleRate : Option String := none
  channels : Option String := none

/-- `AudioConverter._build_ffmpeg_command` (lines 79-121).  Note that the
source computes the bitrate as `kwargs.get('bitrate') or PRESETS.get(...)`,
so an empty-string override is falsy and falls back to the preset. -/
def buildAudioFFmpegCommand (inputPath outputPath targetFormat quality : String)
    (kw : AudioKwargs) : List String :=
  let bitrate := match kw.bitrate with
    | some b => if b = "" then audioQualityPresets quality else b
    | none => audioQualityPresets quality
  let sampleRate := kw.sampleRate.getD "44100"
  let channels := kw.channels.getD "2"
  ["ffmpeg", "-i", inputPath, "-y"]
    ++ audioCodecArgs targetFormat bitrate
    ++ ["-ar", sampleRate, "-ac", channels]
    ++ [outputPath]

/-- `AudioConverter.convert` (lines 24-77): validate input, validate output,
check the format allow-list, then build and run the command; on a failed run
the partial output is cleaned up.  The third component of the result is the
trace of external-process invocations. -/
def audioConvert (env : Env) (fs : FS)
    (inputPath outputPath targetFormat quality : String) (kw : AudioKwargs) :
    (Bool × String) × FS × List (List String) :=
  let v1 := validateInputFile inputPath fs
  if ¬ v1.1 then ((false, v1.2), fs, [])
  else
    let v2 := validateOutputPath outputPath fs
    if ¬ v2.1 then ((false, v2.2), fs, [])
    else if ¬ audioSupportedFormats.contains targetFormat then
      ((false, "Unsupported target format: " ++ targetFormat), fs, [])
    else
      let cmd := buildAudioFFmpegCommand inputPath outputPath targetFormat quality kw
      let r := runFFmpegCommand env cmd 300 fs
      if r.1.1 then ((true, ""), r.2, [cmd])
      else ((false, "FFmpeg conversion failed: " ++ r.1.2.2), cleanupOnError outputPath r.2, [cmd])

/-- The command built by `AudioConverter.extract_audio_from_video`
(lines 140-159): `-vn` suppresses the video stream; the codec block is the
audio converter's per-format selection. -/
def extractAudioCmd (videoPath outputPath audioFormat quality : String) : List String :=
  ["ffmpeg", "-i", videoPath, "-vn", "-y"]
    ++ audioCodecArgs audioFormat (audioQualityPresets quality)
    ++ [outputPath]

/-- `AudioConverter.extract_audio_from_video` (lines 123-169): allow-list
check, then build and run the extraction command; cleanup on failure. -/
def extractAudioFromVideo (env : Env) (fs : FS)
    (videoPath outputPath audioFormat quality : String) :
    (Bool × String) × FS × List (List String) :=
  if ¬ audioSupportedFormats.contains audioFormat then
    ((false, "Unsupported audio format: " ++ audioFormat), fs, [])
  else
    let cmd := extractAudioCmd videoPath outputPath audioFormat quality
    let r := runFFmpegCommand env cmd 300 fs
    if r.1.1 then ((true, ""), r.2, [cmd])
    else ((false, "Audio extraction failed: " ++ r.1.2.2), cleanupOnError outputPath r.2, [cmd])

/-! ### Video converter (src/src/converters/video_converter.py) -/

/-- Static allow-list of video output formats (video_converter.py line 18). -/
def videoSupportedFormats : List String := ["mp4", "avi", "mov", "webm", "mkv"]

/-- The `**kwargs` consumed by `VideoConverter._build_ffmpeg_command`. -/
structure VideoKwargs where
  crf : Option String := none
  resolution : Option String := none
  fps : Option String := none
  audioCodec : Option String := none

/-- `VideoConverter._build_ffmpeg_command` (lines 79-135).  The crf comes
from `kwargs.get('crf') or PRESETS.get(quality, '20')` (empty string is
falsy); the webm branch hardcodes `-crf 30` and the separate `-crf` quality
parameter is only appended for the H.264 container formats; the audio stream
codec defaults to `copy`.  `resolution` and `fps` are guarded by Python
truthiness, so an empty-string value is treated as absent. -/
def buildVideoFFmpegCommand (inputPath outputPath targetFormat quality : String)
    (kw : VideoKwargs) : List String :=
  let crf := match kw.crf with
    | some c => if c = "" then videoQualityPresets quality else c
    | none => videoQualityPresets quality
  let audioCodec := kw.audioCodec.getD "copy"
  ["ffmpeg", "-i", inputPath, "-y"]
    ++ (if targetFormat = "mp4" then ["-c:v", "libx264", "-preset", "medium"]
        else if targetFormat = "avi" then ["-c:v", "libx264", "-preset", "medium"]
        else if targetFormat = "mov" then ["-c:v", "libx264", "-preset", "medium"]
        else if targetFormat = "webm" then ["-c:v", "libvpx-vp9", "-crf", "30"]
        else if targetFormat = "mkv" then ["-c:v", "libx264", "-preset", "medium"]
        else [])
    ++ (if targetFormat ∈ ["mp4", "avi", "mov", "mkv"] then ["-crf", crf] else [])
    ++ (match kw.resolution with
        | some r => if r = "" then [] else ["-vf", "scale=" ++ r]
        | none => [])
    ++ (match kw.fps with
        | some f => if f = "" then [] else ["-r", f]
        | none => [])
    ++ ["-c:a", audioCodec]
    ++ [outputPath]

/-- `VideoConverter.convert` (lines 24-77): same shape as the audio
converter's `convert`. -/
def videoConvert (env : Env) (fs : FS)
    (inputPath outputPath targetFormat quality : String) (kw : VideoKwargs) :
    (Bool × String) × FS × List (List String) :=
  let v1 := validateInputFile inputPath fs
  if ¬ v1.1 then ((false, v1.2), fs, [])
  else
    let v2 := validateOutputPath outputPath fs
    if ¬ v2.1 then ((false, v2.2), fs, [])
    else if ¬ videoSupportedFormats.contains targetFormat then
      ((false, "Unsupported target format: " ++ targetFormat), fs, [])
    else
      let cmd := buildVideoFFmpegCommand inputPath outputPath targetFormat quality kw
      let r := runFFmpegCommand env cmd 300 fs
      if r.1.1 then ((true, ""), r.2, [cmd])
      else ((false, "FFmpeg conversion failed: " ++ r.1.2.2), cleanupOnError outputPath r.2, [cmd])

/-! ### Image converter (src/src/converters/image_converter.py) -/

/-- Static allow-list of image output formats (image_converter.py line 18). -/
def imageSupportedFormats : List String := ["jpg", "jpeg", "png", "webp", "gif", "bmp"]

/-- `ImageConverter._get_quality_qscale` (lines 123-144): the preset-to-qscale
tables, with fallback to the medium entry for unrecognized presets. -/
def getQualityQscale (quality format : String) : Nat :=
  if format = "jpg" ∨ format = "jpeg" then
    if quality = "low" then 25 else if quality = "medium" then 15
    else if quality = "high" then 5 else 15
  else if format = "webp" then
    if quality = "low" then 30 else if quality = "medium" then 60
    else if quality = "high" then 90 else 60
  else
    if quality = "low" then 20 else if quality = "medium" then 10
    else if quality = "high" then 5 else 10

/-- The `**kwargs` consumed by `ImageConverter._build_ffmpeg_command`.  The
source also accepts a `(width, height)` tuple for `resolution`; the claims
only exercise the string form, modelled here. -/
structure ImageKwargs where
  qscale : Option Nat := none
  resolution : Option String := none

/-- `ImageConverter._build_ffmpeg_command` (lines 79-121).  The qscale is
`kwargs.get('qscale') or self._get_quality_qscale(...)`, so an explicit 0 is
falsy and falls back to the preset table; png gets no quality flag. -/
def buildImageFFmpegCommand (inputPath outputPath targetFormat quality : String)
    (kw : ImageKwargs) : List String :=
  let qscale := match kw.qscale with
    | some n => if n = 0 then getQualityQscale quality targetFormat else n
    | none => getQualityQscale quality targetFormat
  ["ffmpeg", "-i", inputPath, "-y"]
    ++ (if targetFormat = "jpg" ∨ targetFormat = "jpeg" then ["-q:v", toString qscale]
        else if targetFormat = "webp" then ["-quality", toString qscale]
        else if targetFormat = "png" then []
        else [])
    ++ (match kw.resolution with
        | some r => if r = "" then [] else ["-vf", "scale=" ++ r]
        | none => [])
    ++ [outputPath]

/-- `ImageConverter.convert` (lines 24-77): same shape as the audio
converter's `convert`. -/
def imageConvert (env : Env) (fs : FS)
    (inputPath outputPath targetFormat quality : String) (kw : ImageKwargs) :
    (Bool × String) × FS × List (List String) :=
  let v1 := validateInputFile inputPath fs
  if ¬ v1.1 then ((false, v1.2), fs, [])
  else
    let v2 := validateOutputPath outputPath fs
    if ¬ v2.1 then ((false, v2.2), fs, [])
    else if ¬ imageSupportedFormats.contains targetFormat then
      ((false, "Unsupported target format: " ++ targetFormat), fs, [])
    else
      let cmd := buildImageFFmpegCommand inputPath outputPath targetFormat quality kw
      let r := runFFmpegCommand env cmd 300 fs
      if r.1.1 then ((true, ""), r.2, [cmd])
      else ((false, "FFmpeg conversion failed: " ++ r.1.2.2), cleanupOnError outputPath r.2, [cmd])

/-! ### Size-targeting compression (image_converter.py lines 199-300) -/

/-- The jpeg quality ladder of `_compress_with_lower_quality` (line 272). -/
def jpegLadder : List Nat := [10, 15, 20, 25, 30]

/-- The webp quality ladder of `_compress_with_lower_quality` (line 287). -/
def webpLadder : List Nat := [80, 70, 60, 50, 40, 30]

/-- The per-attempt jpeg ladder command (line 273). -/
def jpegLadderCmd (inputPath outputPath : String) (qscale : Nat) : List String :=
  ["ffmpeg", "-i", inputPath, "-y", "-q:v", toString qscale, outputPath]

/-- The per-attempt webp ladder command (line 288). -/
def webpLadderCmd (inputPath outputPath : String) (quality : Nat) : List String :=
  ["ffmpeg", "-i", inputPath, "-y", "-quality", toString quality, outputPath]

/-- The exhausted-ladder failure message (line 300).  The source formats the
float `target_size_kb`; sizes are modelled as integral KB. -/
def sizeTargetFailMsg (targetSizeKb : Nat) : String :=
  "Could not compress image to target size: " ++ toString targetSizeKb ++ "KB"

/-- The measured output size check of lines 277-278 and 292-293: the source
compares `os.path.getsize(output_path) / 1024 <= target_size_kb`, which for
an integral KB budget is exactly `sizeBytes ≤ targetSizeKb * 1024`.  Python's
`getsize` raises on a missing file; the model totalizes that case to 0 and
the theorems restrict to environments in which a zero exit code implies the
output file was written. -/
def measuredSize (fs : FS) (outputPath : String) : Nat :=
  (fs.files outputPath).getD 0

/-- The shared shape of the two quality-ladder loops of
`_compress_with_lower_quality` (lines 270-300), parameterized by the
per-attempt command constructor: run each attempt in ladder order; on a
successful run whose output meets the budget, return success; on a
successful but oversized run, delete the output and continue; on a failed
run, continue; when the ladder is exhausted, fall through to the common
failure return of line 300. -/
def runQualityLadder (env : Env) (mkCmd : Nat → List String)
    (outputPath : String) (targetSizeKb : Nat) :
    List Nat → FS → (Bool × String) × FS × List (List String)
  | [], fs => ((false, sizeTargetFailMsg targetSizeKb), fs, [])
  | q :: rest, fs =>
      let cmd := mkCmd q
      let r := runFFmpegCommand env cmd 300 fs
      if r.1.1 then
        if measuredSize r.2 outputPath ≤ targetSizeKb * 1024 then
          ((true, ""), r.2, [cmd])
        else
          let sub := runQualityLadder env mkCmd outputPath targetSizeKb rest
            (cleanupOnError outputPath r.2)
          (sub.1, sub.2.1, cmd :: sub.2.2)
      else
        let sub := runQualityLadder env mkCmd outputPath targetSizeKb rest r.2
        (sub.1, sub.2.1, cmd :: sub.2.2)

/-- `ImageConverter._compress_with_lower_quality` (lines 256-300): the jpeg
and webp branches iterate their ladders; every other format falls straight
through to the failure return with no cleanup. -/
def compressWithLowerQuality (env : Env) (fs : FS)
    (inputPath outputPath targetFormat : String) (targetSizeKb : Nat) :
    (Bool × String) × FS × List (List String) :=
  if targetFormat = "jpg" ∨ targetFormat = "jpeg" then
    runQualityLadder env (jpegLadderCmd inputPath outputPath) outputPath targetSizeKb
      jpegLadder fs
  else if targetFormat = "webp" then
    runQualityLadder env (webpLadderCmd inputPath outputPath) outputPath targetSizeKb
      webpLadder fs
  else
    ((false, sizeTargetFailMsg targetSizeKb), fs, [])

/-- `os.path.splitext(p)[1][1:]` as used by `compress_image` when no target
format is supplied: the extension after the last dot of the last path
component, empty when the basename has no non-leading dot. -/
def splitextExt (p : String) : String :=
  let name := (p.splitOn "/").getLastD ""
  let parts := name.splitOn "."
  if parts.length ≤ 1 then ""
  else if (name.take 1 = ".") ∧ parts.length = 2 then ""
  else parts.getLastD ""

/-- The first, fixed-quality attempt command of `compress_image`
(lines 221-236): qscale 5 for jpeg, quality 90 for webp, maximum
compression level for png. -/
def compressImageFirstCmd (inputPath outputPath targetFormat : String) : List String :=
  ["ffmpeg", "-i", inputPath, "-y"]
    ++ (if targetFormat = "jpg" ∨ targetFormat = "jpeg" then ["-q:v", "5"]
        else if targetFormat = "webp" then ["-quality", "90"]
        else if targetFormat = "png" then ["-compression_level", "9"]
        else [])
    ++ [outputPath]

/-- `ImageConverter.compress_image` (lines 199-254): allow-list check, one
fixed-quality attempt, then, if the output is oversized, hand off to the
quality ladder.  No input-file validation is performed by the source. -/
def compressImage (env : Env) (fs : FS)
    (inputPath outputPath : String) (targetSizeKb : Nat)
    (targetFormatArg : Option String) :
    (Bool × String) × FS × List (List String) :=
  let targetFormat := targetFormatArg.getD (splitextExt inputPath)
  if ¬ imageSupportedFormats.contains targetFormat then
    ((false, "Unsupported target format: " ++ targetFormat), fs, [])
  else
    let cmd := compressImageFirstCmd inputPath outputPath targetFormat
    let r := runFFmpegCommand env cmd 300 fs
    if r.1.1 then
      if measuredSize r.2 outputPath ≤ targetSizeKb * 1024 then
        ((true, ""), r.2, [cmd])
      else
        let sub := compressWithLowerQuality env r.2 inputPath outputPath targetFormat targetSizeKb
        (sub.1, sub.2.1, cmd :: sub.2.2)
    else
      ((false, "Image compression failed: " ++ r.1.2.2), cleanupOnError outputPath r.2, [cmd])

/-! ### File utilities (src/src/utils/file_utils.py) -/

/-- `pathlib.Path(name).stem` for the plain filenames this service handles
(the `secure_filename` output contains no path separator): the name with its
final suffix removed, where a suffix requires a dot that is neither leading
nor trailing. -/
def pathStem (name : String) : String :=
  let cs := name.data
  let dotIdxs := (List.range cs.length).filter fun i => cs.getD i ' ' = '.'
  match dotIdxs.getLast? with
  | some i => if 0 < i ∧ i < cs.length - 1 then ⟨cs.take i⟩ else name
  | none => name

/-- `generate_unique_filename` (file_utils.py lines 129-142): the original
stem, an underscore, the first 8 characters of a fresh UUID (passed in here
as `uniqueId`), a dot, and the target format. -/
def generateUniqueFilename (originalFilename targetFormat uniqueId : String) : String :=
  pathStem originalFilename ++ "_" ++ uniqueId ++ "." ++ targetFormat

/-! ### Dispatcher (src/src/routes/api.py lines 95-123) -/

/-- The conversion-routing core of `convert_file` (api.py lines 95-123):
choose the converter from the classified file type and the `extract_audio`
flag; the converters are invoked with no extra kwargs. -/
def dispatchConvert (env : Env) (fs : FS)
    (fileType : String) (extractAudio : Bool)
    (uploadPath outputPath targetFormat quality : String) :
    (Bool × String) × FS × List (List String) :=
  if fileType = "audio" ∨ (fileType = "video" ∧ extractAudio) then
    if extractAudio ∧ fileType = "video" then
      extractAudioFromVideo env fs uploadPath outputPath targetFormat quality
    else
      audioConvert env fs uploadPath outputPath targetFormat quality {}
  else if fileType = "video" then
    videoConvert env fs uploadPath outputPath targetFormat quality {}
  else if fileType = "image" then
    imageConvert env fs uploadPath outputPath targetFormat quality {}
  else
    ((false, "Unsupported file type: " ++ fileType), fs, [])

/-! ### Observers and concrete environments used by the theorems below -/

/-- The success verdict `run_ffmpeg_command` is specified to derive from a
process outcome: exit code zero, and nothing else. -/
def exitCodeIsZero : RunOutcome → Bool
  | .completed code _ _ _ => code == 0
  | _ => false

/-- Whether an outcome is a timeout expiry. -/
def isTimedOut : RunOutcome → Bool
  | .timedOut _ => true
  | _ => false

/-- A filesystem with no files, everything readable and writable. -/
def emptyFS : FS :=
  { files := fun _ => none, readable := fun _ => true, writableOut := fun _ => true }

/-- An environment in which every invocation exits 0 and writes an output
file of `n` bytes. -/
def constEnv (n : Nat) : Env := fun _ => .completed 0 "" "" (some n)

/-- An environment in which every invocation times out leaving no file. -/
def timeoutEnv : Env := fun _ => .timedOut none

/-- An environment for the ladder scenarios: qscale 10 yields a 200 KB file,
qscale 15 a ~146 KB file, and every other invocation a 95 KB file. -/
def ladderEnvExample : Env := fun cmd =>
  if cmd = jpegLadderCmd "i.jpg" "o.jpg" 10 then .completed 0 "" "" (some 204800)
  else if cmd = jpegLadderCmd "i.jpg" "o.jpg" 15 then .completed 0 "" "" (some 150000)
  else .completed 0 "" "" (some 97280)

/-! ### Claim theorems -/

/-- C2: for every converter kind and every target format outside that kind's
static allow-list, `convert` returns a failure result value (the model is a
total function, so no exception is raised) and performs zero
external-process invocations (empty trace). -/
theorem unsupportedFormat_noInvocation
    (env : Env) (fs : FS) (inp outp q : String)
    (fa fv fi : String) (ka : AudioKwargs) (kv : VideoKwargs) (ki : ImageKwargs)
    (ha : fa ∉ audioSupportedFormats) (hv : fv ∉ videoSupportedFormats)
    (hi : fi ∉ imageSupportedFormats) :
    ((audioConvert env fs inp outp fa q ka).1.1 = false
      ∧ (audioConvert env fs inp outp fa q ka).2.2 = [])
    ∧ ((videoConvert env fs inp outp fv q kv).1.1 = false
      ∧ (videoConvert env fs inp outp fv q kv).2.2 = [])
    ∧ ((imageConvert env fs inp outp fi q ki).1.1 = false
      ∧ (imageConvert env fs inp outp fi q ki).2.2 = []) := by
  refine ⟨?_, ?_, ?_⟩
  · have hc : audioSupportedFormats.contains fa = false := by simp [ha]
    simp only [audioConvert, hc]
    split
    · simp
    split
    · simp
    simp
  · have hc : videoSupportedFormats.contains fv = false := by simp [hv]
    simp only [videoConvert, hc]
    split
    · simp
    split
    · simp
    simp
  · have hc : imageSupportedFormats.contains fi = false := by simp [hi]
    simp only [imageConvert, hc]
    split
    · simp
    split
    · simp
    simp

/-- Witness for C2 at the concrete unsupported format "xyz". -/
theorem unsupportedFormat_noInvocation_witness :
    ((audioConvert (constEnv 5) emptyFS "a.mp3" "b.xyz" "xyz" "medium" {}).1.1 = false
      ∧ (audioConvert (constEnv 5) emptyFS "a.mp3" "b.xyz" "xyz" "medium" {}).2.2 = [])
    ∧ ((videoConvert (constEnv 5) emptyFS "a.mp4" "b.xyz" "xyz" "medium" {}).1.1 = false
      ∧ (videoConvert (constEnv 5) emptyFS "a.mp4" "b.xyz" "xyz" "medium" {}).2.2 = [])
    ∧ ((imageConvert (constEnv 5) emptyFS "a.png" "b.xyz" "xyz" "medium" {}).1.1 = false
      ∧ (imageConvert (constEnv 5) emptyFS "a.png" "b.xyz" "xyz" "medium" {}).2.2 = []) :=
  unsupportedFormat_noInvocation (constEnv 5) emptyFS "a.mp3" "b.xyz" "medium"
    "xyz" "xyz" "xyz" {} {} {} (by decide) (by decide) (by decide)

/-- C6: the process runner's success flag is decided by the exit code alone
(stderr content never influences it; the model is total, so nothing is
raised), and a timeout expiry is reported as a failure whose detail text
contains "timed out". -/
theorem runFFmpeg_exitCode_decides (env : Env) (cmd : List String) (t : Nat) (fs : FS) :
    (runFFmpegCommand env cmd t fs).1.1 = exitCodeIsZero (env cmd)
    ∧ (isTimedOut (env cmd) = true →
        (runFFmpegCommand env cmd t fs).1.1 = false
        ∧ "timed out".data <:+: ((runFFmpegCommand env cmd t fs).1.2.2).data) := by
  unfold runFFmpegCommand exitCodeIsZero isTimedOut
  match h : env cmd with
  | .completed code so se w => simp
  | .timedOut w =>
      refine ⟨rfl, fun _ => ⟨rfl, ?_⟩⟩
      show "timed out".data <:+:
        ("FFmpeg command timed out after " ++ toString t ++ " seconds").data
      have h1 : "timed out".data <:+: "FFmpeg command timed out after ".data := by decide
      calc "timed out".data
          <:+: "FFmpeg command timed out after ".data := h1
        _ <:+: ("FFmpeg command timed out after " ++ toString t ++ " seconds").data := by
            rw [String.data_append, String.data_append]
            exact ((List.prefix_append _ _).isInfix).trans
              ((List.prefix_append _ _).isInfix)
  | .excOther m => simp

/-- Witness for C6: a timed-out invocation is reported as a failure with a
"timed out" detail. -/
theorem runFFmpeg_exitCode_decides_witness :
    (runFFmpegCommand timeoutEnv ["ffmpeg"] 300 emptyFS).1.1 = false
    ∧ "timed out".data <:+: ((runFFmpegCommand timeoutEnv ["ffmpeg"] 300 emptyFS).1.2.2).data :=
  (runFFmpeg_exitCode_decides timeoutEnv ["ffmpeg"] 300 emptyFS).2 rfl

/-- C7: any quality string outside {low, medium, high} resolves exactly the
"medium" parameters in every converter (audio bitrate 192k, video CRF 20,
image medium qscale) and never errors (the builders are total functions). -/
theorem unknownPreset_fallsBackMedium
    (q : String) (h1 : q ≠ "low") (h2 : q ≠ "medium") (h3 : q ≠ "high")
    (inp outp fa fv fi : String) (ka : AudioKwargs) (kv : VideoKwargs) (ki : ImageKwargs) :
    audioQualityPresets q = "192k"
    ∧ videoQualityPresets q = "20"
    ∧ getQualityQscale q fi = getQualityQscale "medium" fi
    ∧ buildAudioFFmpegCommand inp outp fa q ka = buildAudioFFmpegCommand inp outp fa "medium" ka
    ∧ buildVideoFFmpegCommand inp outp fv q kv = buildVideoFFmpegCommand inp outp fv "medium" kv
    ∧ buildImageFFmpegCommand inp outp fi q ki = buildImageFFmpegCommand inp outp fi "medium" ki := by
  refine ⟨?_, ?_, ?_, ?_, ?_, ?_⟩ <;>
    simp [audioQualityPresets, videoQualityPresets, getQualityQscale,
      buildAudioFFmpegCommand, buildVideoFFmpegCommand, buildImageFFmpegCommand,
      h1, h2, h3]

/-- Witness for C7 at the unrecognized preset "ultra". -/
theorem unknownPreset_fallsBackMedium_witness :
    audioQualityPresets "ultra" = "192k"
    ∧ videoQualityPresets "ultra" = "20"
    ∧ getQualityQscale "ultra" "jpg" = getQualityQscale "medium" "jpg"
    ∧ buildAudioFFmpegCommand "a.wav" "b.out" "mp3" "ultra" {} =
        buildAudioFFmpegCommand "a.wav" "b.out" "mp3" "medium" {}
    ∧ buildVideoFFmpegCommand "a.wav" "b.out" "mp4" "ultra" {} =
        buildVideoFFmpegCommand "a.wav" "b.out" "mp4" "medium" {}
    ∧ buildImageFFmpegCommand "a.wav" "b.out" "jpg" "ultra" {} =
        buildImageFFmpegCommand "a.wav" "b.out" "jpg" "medium" {} :=
  unknownPreset_fallsBackMedium "ultra" (by decide) (by decide) (by decide)
    "a.wav" "b.out" "mp3" "mp4" "jpg" {} {} {}

/-- C4 counterexample: the claim includes video→webm among the (kind, format)
pairs with a quality knob and asserts distinct resolved parameters for
distinct presets; but the webm build emits a fixed `-crf 30` and skips the
preset-derived CRF, so "low" and "high" build identical commands. -/
theorem webmPresetIgnored_cex :
    buildVideoFFmpegCommand "clip.mp4" "out.webm" "webm" "low" {} =
    buildVideoFFmpegCommand "clip.mp4" "out.webm" "webm" "high" {} := by decide

/-- C4 amended: for the preset-sensitive quality knobs (audio bitrate, video
CRF on the H.264 formats, image qscale families) distinct presets resolve
distinct parameters, with low at the lower nominal quality end of each
family; video→webm is the exception: its command is the same for all
presets. -/
theorem presetDistinctness_amended :
    (audioQualityPresets "low" ≠ audioQualityPresets "medium"
      ∧ audioQualityPresets "medium" ≠ audioQualityPresets "high"
      ∧ audioQualityPresets "low" ≠ audioQualityPresets "high")
    ∧ (videoQualityPresets "low" ≠ videoQualityPresets "medium"
      ∧ videoQualityPresets "medium" ≠ videoQualityPresets "high"
      ∧ videoQualityPresets "low" ≠ videoQualityPresets "high")
    ∧ (buildAudioFFmpegCommand "in.wav" "out.mp3" "mp3" "low" {} ≠
        buildAudioFFmpegCommand "in.wav" "out.mp3" "mp3" "high" {})
    ∧ (buildVideoFFmpegCommand "in.avi" "out.mp4" "mp4" "low" {} ≠
        buildVideoFFmpegCommand "in.avi" "out.mp4" "mp4" "high" {})
    ∧ (getQualityQscale "high" "jpg" < getQualityQscale "medium" "jpg"
      ∧ getQualityQscale "medium" "jpg" < getQualityQscale "low" "jpg")
    ∧ (getQualityQscale "low" "webp" < getQualityQscale "medium" "webp"
      ∧ getQualityQscale "medium" "webp" < getQualityQscale "high" "webp")
    ∧ (getQualityQscale "high" "png" < getQualityQscale "medium" "png"
      ∧ getQualityQscale "medium" "png" < getQualityQscale "low" "png")
    ∧ (audioQualityPresets "low" = "128k" ∧ audioQualityPresets "high" = "320k")
    ∧ (videoQualityPresets "low" = "23" ∧ videoQualityPresets "high" = "18")
    ∧ (buildVideoFFmpegCommand "in.avi" "out.webm" "webm" "low" {} =
        buildVideoFFmpegCommand "in.avi" "out.webm" "webm" "medium" {}
      ∧ buildVideoFFmpegCommand "in.avi" "out.webm" "webm" "medium" {} =
        buildVideoFFmpegCommand "in.avi" "out.webm" "webm" "high" {}) := by
  decide

/-- C9: the audio command builder unconditionally appends `-ar`/`-ac` with
the caller's sample rate and channel count, defaulting to 44100 and 2, for
every target format (lossless wav/flac included) and every preset. -/
theorem audioCmd_alwaysResampled (inp outp fmt q : String) (kw : AudioKwargs) :
    ["-ar", kw.sampleRate.getD "44100", "-ac", kw.channels.getD "2", outp]
      <:+ buildAudioFFmpegCommand inp outp fmt q kw
    ∧ ["-ar", "44100", "-ac", "2", outp] <:+ buildAudioFFmpegCommand inp outp fmt q {} := by
  constructor
  · unfold buildAudioFFmpegCommand
    simp only [List.append_assoc]
    exact (List.suffix_append _ _).trans (List.suffix_append _ _)
  · unfold buildAudioFFmpegCommand
    simp only [List.append_assoc]
    exact (List.suffix_append _ _).trans (List.suffix_append _ _)

/-- C10: the generated unique filename begins with the original filename's
stem and ends with a dot followed by exactly the target format string. -/
theorem generateUniqueFilename_shape (orig fmt uid : String) :
    (pathStem orig).data <+: (generateUniqueFilename orig fmt uid).data
    ∧ ("." ++ fmt).data <:+ (generateUniqueFilename orig fmt uid).data := by
  unfold generateUniqueFilename
  constructor
  · simp only [String.data_append, List.append_assoc]
    exact List.prefix_append _ _
  · simp only [String.data_append, List.append_assoc]
    exact ((List.suffix_append _ _).trans (List.suffix_append _ _)).trans
      (List.suffix_append _ _)


/-- Running one ladder attempt whose process succeeds: the run result. -/
theorem runFFmpegCommand_completed (env : Env) (cmd : List String) (t : Nat) (fs : FS)
    (code : Nat) (so se : String) (m : Nat)
    (h : env cmd = .completed code so se (some m)) :
    runFFmpegCommand env cmd t fs = ((code == 0, so, se), fs.write (outputOf cmd) m) := by
  simp [runFFmpegCommand, h]

/-- Exhausted-ladder behavior of the shared quality-ladder loop: when every
attempt exits 0 but produces an oversized file, the loop returns the common
failure message, its trace covers the whole ladder, and (when the ladder is
nonempty, or the output was absent to begin with) the output path does not
hold a file at the end. -/
theorem runQualityLadder_exhausted
    (env : Env) (mkc : Nat → List String) (outp : String) (t : Nat)
    (hout : ∀ x, outputOf (mkc x) = outp)
    (L : List Nat) :
    ∀ fs : FS,
      (∀ x ∈ L, ∃ so se m, env (mkc x) = .completed 0 so se (some m) ∧ t * 1024 < m) →
      (runQualityLadder env mkc outp t L fs).1 = (false, sizeTargetFailMsg t)
      ∧ (runQualityLadder env mkc outp t L fs).2.2 = L.map mkc
      ∧ ((L ≠ [] ∨ fs.files outp = none) →
          (runQualityLadder env mkc outp t L fs).2.1.files outp = none) := by
  induction L with
  | nil =>
      intro fs _
      refine ⟨rfl, rfl, fun h => ?_⟩
      rcases h with h | h
      · exact absurd rfl h
      · exact h
  | cons a rest ih =>
      intro fs h
      obtain ⟨so, se, m, hrun, hm⟩ := h a (List.mem_cons_self a rest)
      have hrest := fun x hx => h x (List.mem_cons_of_mem a hx)
      have hr := runFFmpegCommand_completed env (mkc a) 300 fs 0 so se m hrun
      rw [hout a] at hr
      have hle : ¬ (m ≤ t * 1024) := by omega
      obtain ⟨ih1, ih2, ih3⟩ := ih (cleanupOnError outp (fs.write outp m)) hrest
      simp only [runQualityLadder, hr, measuredSize]
      simp only [FS.write_files_self, Option.getD_some, if_neg hle]
      refine ⟨?_, ?_, fun _ => ?_⟩
      · simpa using ih1
      · simpa using ih2
      · simpa using ih3 (Or.inr (by simp [cleanupOnError]))

/-- First-fit behavior of the shared quality-ladder loop: if every attempt
before `q` exits 0 but oversized, and `q`'s attempt exits 0 with a size
within budget, the loop succeeds at `q`, its trace stops at `q` (later
ladder entries are never attempted), and the final filesystem holds the
fitting output. -/
theorem runQualityLadder_firstFit
    (env : Env) (mkc : Nat → List String) (outp : String) (t : Nat)
    (hout : ∀ x, outputOf (mkc x) = outp)
    (A : List Nat) :
    ∀ fs : FS,
      (∀ x ∈ A, ∃ so se m, env (mkc x) = .completed 0 so se (some m) ∧ t * 1024 < m) →
      ∀ (q : Nat) (B : List Nat) (so se : String) (n : Nat),
        env (mkc q) = .completed 0 so se (some n) → n ≤ t * 1024 →
        (runQualityLadder env mkc outp t (A ++ q :: B) fs).1 = (true, "")
        ∧ (runQualityLadder env mkc outp t (A ++ q :: B) fs).2.2 = A.map mkc ++ [mkc q]
        ∧ (runQualityLadder env mkc outp t (A ++ q :: B) fs).2.1.files outp = some n := by
  induction A with
  | nil =>
      intro fs _ q B so se n hq hn
      have hr := runFFmpegCommand_completed env (mkc q) 300 fs 0 so se n hq
      rw [hout q] at hr
      simp only [List.nil_append, runQualityLadder, hr, measuredSize]
      simp only [FS.write_files_self, Option.getD_some, if_pos hn]
      simp
  | cons a rest ih =>
      intro fs h q B so se n hq hn
      obtain ⟨so1, se1, m, hrun, hm⟩ := h a (List.mem_cons_self a rest)
      have hrest := fun x hx => h x (List.mem_cons_of_mem a hx)
      have hr := runFFmpegCommand_completed env (mkc a) 300 fs 0 so1 se1 m hrun
      rw [hout a] at hr
      have hle : ¬ (m ≤ t * 1024) := by omega
      obtain ⟨ih1, ih2, ih3⟩ :=
        ih (cleanupOnError outp (fs.write outp m)) hrest q B so se n hq hn
      simp only [List.cons_append, runQualityLadder, hr, measuredSize]
      simp only [FS.write_files_self, Option.getD_some, if_neg hle]
      refine ⟨?_, ?_, ?_⟩
      · simpa using ih1
      · simpa using ih2
      · simpa using ih3


/-- C1 amended: for the audio, video and image convert operations, if the
output path holds no file before the call and the result is a failure, the
output path holds no file afterwards. -/
theorem convert_cleanupOnFailure_amended
    (env : Env) (fs : FS) (inp outp q fa fv fi : String)
    (ka : AudioKwargs) (kv : VideoKwargs) (ki : ImageKwargs)
    (h : fs.files outp = none) :
    ((audioConvert env fs inp outp fa q ka).1.1 = false →
      (audioConvert env fs inp outp fa q ka).2.1.files outp = none)
    ∧ ((videoConvert env fs inp outp fv q kv).1.1 = false →
      (videoConvert env fs inp outp fv q kv).2.1.files outp = none)
    ∧ ((imageConvert env fs inp outp fi q ki).1.1 = false →
      (imageConvert env fs inp outp fi q ki).2.1.files outp = none) := by
  refine ⟨?_, ?_, ?_⟩
  · simp only [audioConvert]
    split
    · simpa using h
    split
    · simpa using h
    split
    · simpa using h
    split
    · simp
    · simp [cleanupOnError]
  · simp only [videoConvert]
    split
    · simpa using h
    split
    · simpa using h
    split
    · simpa using h
    split
    · simp
    · simp [cleanupOnError]
  · simp only [imageConvert]
    split
    · simpa using h
    split
    · simpa using h
    split
    · simpa using h
    split
    · simp
    · simp [cleanupOnError]

/-- C1 counterexample: `compress_image` on a png target whose single attempt
succeeds oversized returns a failure result while the oversized output file
is still present. -/
theorem compress_failureLeavesOutput_cex :
    (compressImage (constEnv 307200) emptyFS "in.png" "out.png" 100 (some "png")).1.1 = false
    ∧ (compressImage (constEnv 307200) emptyFS "in.png" "out.png" 100 (some "png")).2.1.files
        "out.png" = some 307200 := by
  decide

/-- Witness for the amended C1. -/
theorem convert_cleanupOnFailure_amended_witness :
    (audioConvert (constEnv 5) emptyFS "in.mp3" "out.dat" "wav" "medium" {}).2.1.files
        "out.dat" = none
    ∧ (videoConvert (constEnv 5) emptyFS "in.mp4" "out.dat" "mp4" "medium" {}).2.1.files
        "out.dat" = none
    ∧ (imageConvert (constEnv 5) emptyFS "in.png" "out.dat" "png" "medium" {}).2.1.files
        "out.dat" = none :=
  ⟨(convert_cleanupOnFailure_amended (constEnv 5) emptyFS "in.mp3" "out.dat" "medium"
      "wav" "mp4" "png" {} {} {} rfl).1 (by decide),
   (convert_cleanupOnFailure_amended (constEnv 5) emptyFS "in.mp4" "out.dat" "medium"
      "wav" "mp4" "png" {} {} {} rfl).2.1 (by decide),
   (convert_cleanupOnFailure_amended (constEnv 5) emptyFS "in.png" "out.dat" "medium"
      "wav" "mp4" "png" {} {} {} rfl).2.2 (by decide)⟩

/-- C3 counterexample: when the jpeg ladder is exhausted, the failure result
carries a message naming only the requested target size — two runs whose
best-effort (smallest achieved) sizes differ (200 KB vs 400 KB) return the
very same failure result, so the result cannot name the best-effort size —
and the last, smallest-produced file has been deleted, not kept. -/
theorem sizeTargetMessage_cex :
    (compressImage (constEnv 204800) emptyFS "in.jpg" "out.jpg" 100 (some "jpg")).1
      = (compressImage (constEnv 409600) emptyFS "in.jpg" "out.jpg" 100 (some "jpg")).1
    ∧ (compressImage (constEnv 204800) emptyFS "in.jpg" "out.jpg" 100 (some "jpg")).1.1 = false
    ∧ (compressImage (constEnv 204800) emptyFS "in.jpg" "out.jpg" 100 (some "jpg")).1.2
      = sizeTargetFailMsg 100
    ∧ (compressImage (constEnv 204800) emptyFS "in.jpg" "out.jpg" 100
        (some "jpg")).2.1.files "out.jpg" = none := by
  decide

/-- C3 amended: when the quality ladder is exhausted without meeting the
budget, the compressor returns a failure naming the requested target size
(`sizeTargetFailMsg`), having attempted the whole ladder; every oversized
output, the last and smallest included, has been deleted, so no best-effort
file or size is reported. -/
theorem sizeTargetExhausted_amended
    (env : Env) (fs : FS) (inp outp : String) (t : Nat)
    (hj : ∀ x ∈ jpegLadder, ∃ so se m,
        env (jpegLadderCmd inp outp x) = .completed 0 so se (some m) ∧ t * 1024 < m) :
    (compressWithLowerQuality env fs inp outp "jpg" t).1 = (false, sizeTargetFailMsg t)
    ∧ (compressWithLowerQuality env fs inp outp "jpg" t).2.2
        = jpegLadder.map (jpegLadderCmd inp outp)
    ∧ (compressWithLowerQuality env fs inp outp "jpg" t).2.1.files outp = none := by
  have h := runQualityLadder_exhausted env (jpegLadderCmd inp outp) outp t
    (fun _ => rfl) jpegLadder fs hj
  simp only [compressWithLowerQuality, if_pos (Or.inl rfl)]
  exact ⟨h.1, h.2.1, h.2.2 (Or.inl (by decide))⟩

/-- Witness for the amended C3: every ladder attempt yields a 200 KB file
against a 100 KB budget. -/
theorem sizeTargetExhausted_amended_witness :
    (compressWithLowerQuality (constEnv 204800) emptyFS "i.jpg" "o.jpg" "jpg" 100).1
      = (false, sizeTargetFailMsg 100)
    ∧ (compressWithLowerQuality (constEnv 204800) emptyFS "i.jpg" "o.jpg" "jpg" 100).2.2
        = jpegLadder.map (jpegLadderCmd "i.jpg" "o.jpg")
    ∧ (compressWithLowerQuality (constEnv 204800) emptyFS "i.jpg" "o.jpg" "jpg"
        100).2.1.files "o.jpg" = none :=
  sizeTargetExhausted_amended (constEnv 204800) emptyFS "i.jpg" "o.jpg" 100
    (fun x _ => ⟨"", "", 204800, rfl, by omega⟩)

/-- C5: the size-targeting compression iterates the quality ladder in order:
it stops at the first ladder entry whose run succeeds with a size within
budget (the trace visits exactly the earlier entries and that one, so later
steps are never attempted), the fitting output is what remains on disk; and
each oversized attempt's output is deleted before the next attempt begins
(the loop recurses on a filesystem in which the output path is absent). -/
theorem ladder_stopsAtFirstFit
    (env : Env) (fs : FS) (inp outp : String) (t : Nat)
    (A : List Nat) (q : Nat) (B : List Nat)
    (hsplit : jpegLadder = A ++ q :: B)
    (hA : ∀ x ∈ A, ∃ so se m,
        env (jpegLadderCmd inp outp x) = .completed 0 so se (some m) ∧ t * 1024 < m)
    (so se : String) (n : Nat)
    (hq : env (jpegLadderCmd inp outp q) = .completed 0 so se (some n))
    (hn : n ≤ t * 1024)
    (a : Nat) (rest : List Nat) (so1 se1 : String) (m : Nat) (fs1 : FS)
    (ha : env (jpegLadderCmd inp outp a) = .completed 0 so1 se1 (some m))
    (hm : t * 1024 < m) :
    ((compressWithLowerQuality env fs inp outp "jpg" t).1 = (true, "")
      ∧ (compressWithLowerQuality env fs inp outp "jpg" t).2.2
          = A.map (jpegLadderCmd inp outp) ++ [jpegLadderCmd inp outp q]
      ∧ (compressWithLowerQuality env fs inp outp "jpg" t).2.1.files outp = some n)
    ∧ (runQualityLadder env (jpegLadderCmd inp outp) outp t (a :: rest) fs1 =
        ((runQualityLadder env (jpegLadderCmd inp outp) outp t rest
            (cleanupOnError outp (fs1.write outp m))).1,
         (runQualityLadder env (jpegLadderCmd inp outp) outp t rest
            (cleanupOnError outp (fs1.write outp m))).2.1,
         jpegLadderCmd inp outp a :: (runQualityLadder env (jpegLadderCmd inp outp) outp t rest
            (cleanupOnError outp (fs1.write outp m))).2.2)
      ∧ (cleanupOnError outp (fs1.write outp m)).files outp = none) := by
  constructor
  · have h := runQualityLadder_firstFit env (jpegLadderCmd inp outp) outp t
      (fun _ => rfl) A fs hA q B so se n hq hn
    simp only [compressWithLowerQuality, if_pos (Or.inl rfl), hsplit]
    exact h
  · have hr := runFFmpegCommand_completed env (jpegLadderCmd inp outp a) 300 fs1 0 so1 se1 m ha
    have hout : outputOf (jpegLadderCmd inp outp a) = outp := rfl
    rw [hout] at hr
    have hle : ¬ (m ≤ t * 1024) := by omega
    constructor
    · simp only [runQualityLadder, hr, measuredSize]
      simp only [FS.write_files_self, Option.getD_some, if_neg hle]
      simp
    · simp [cleanupOnError]

/-- Witness for C5: with a 100 KB budget, qscale 10 yields 200 KB, qscale 15
yields ~146 KB, and qscale 20 yields 95 KB, so the loop stops at qscale 20
with entries 25 and 30 never attempted. -/
theorem ladder_stopsAtFirstFit_witness :
    ((compressWithLowerQuality ladderEnvExample emptyFS "i.jpg" "o.jpg" "jpg" 100).1 = (true, "")
      ∧ (compressWithLowerQuality ladderEnvExample emptyFS "i.jpg" "o.jpg" "jpg" 100).2.2
          = [10, 15].map (jpegLadderCmd "i.jpg" "o.jpg") ++ [jpegLadderCmd "i.jpg" "o.jpg" 20]
      ∧ (compressWithLowerQuality ladderEnvExample emptyFS "i.jpg" "o.jpg" "jpg"
          100).2.1.files "o.jpg" = some 97280)
    ∧ (runQualityLadder ladderEnvExample (jpegLadderCmd "i.jpg" "o.jpg") "o.jpg" 100
        (10 :: [15]) emptyFS =
        ((runQualityLadder ladderEnvExample (jpegLadderCmd "i.jpg" "o.jpg") "o.jpg" 100 [15]
            (cleanupOnError "o.jpg" (emptyFS.write "o.jpg" 204800))).1,
         (runQualityLadder ladderEnvExample (jpegLadderCmd "i.jpg" "o.jpg") "o.jpg" 100 [15]
            (cleanupOnError "o.jpg" (emptyFS.write "o.jpg" 204800))).2.1,
         jpegLadderCmd "i.jpg" "o.jpg" 10 ::
           (runQualityLadder ladderEnvExample (jpegLadderCmd "i.jpg" "o.jpg") "o.jpg" 100 [15]
            (cleanupOnError "o.jpg" (emptyFS.write "o.jpg" 204800))).2.2)
      ∧ (cleanupOnError "o.jpg" (emptyFS.write "o.jpg" 204800)).files "o.jpg" = none) :=
  ladder_stopsAtFirstFit ladderEnvExample emptyFS "i.jpg" "o.jpg" 100
    [10, 15] 20 [25, 30] (by decide)
    (by
      intro x hx
      fin_cases hx
      · exact ⟨"", "", 204800, by decide, by omega⟩
      · exact ⟨"", "", 150000, by decide, by omega⟩)
    "" "" 97280 (by decide) (by omega)
    10 [15] "" "" 204800 emptyFS (by decide) (by omega)

/-- C8: a video-kind input with audio extraction requested routes to the
audio-extraction build path (not the generic video converter); the single
command run is the extraction command, which suppresses the video stream
(`-vn`) and applies the audio converter's per-format codec selection. -/
theorem dispatch_extractAudio_routing
    (env : Env) (fs : FS) (up outp fmt q : String)
    (hf : fmt ∈ audioSupportedFormats) :
    dispatchConvert env fs "video" true up outp fmt q
      = extractAudioFromVideo env fs up outp fmt q
    ∧ (dispatchConvert env fs "video" true up outp fmt q).2.2
        = [extractAudioCmd up outp fmt q]
    ∧ "-vn" ∈ extractAudioCmd up outp fmt q
    ∧ extractAudioCmd up outp fmt q =
        ["ffmpeg", "-i", up, "-vn", "-y"]
          ++ audioCodecArgs fmt (audioQualityPresets q) ++ [outp] := by
  have hroute : dispatchConvert env fs "video" true up outp fmt q
      = extractAudioFromVideo env fs up outp fmt q := by
    simp [dispatchConvert]
  have hc : audioSupportedFormats.contains fmt = true := by simp [hf]
  refine ⟨hroute, ?_, ?_, rfl⟩
  · rw [hroute]
    simp only [extractAudioFromVideo, hc]
    rw [if_neg (by simp)]
    split <;> simp
  · simp [extractAudioCmd]

/-- Witness for C8 at `clip.mp4` with targetFormat "flac". -/
theorem dispatch_extractAudio_routing_witness :
    dispatchConvert (constEnv 10) emptyFS "video" true "clip.mp4" "out.flac" "flac" "medium"
      = extractAudioFromVideo (constEnv 10) emptyFS "clip.mp4" "out.flac" "flac" "medium"
    ∧ (dispatchConvert (constEnv 10) emptyFS "video" true "clip.mp4" "out.flac" "flac"
        "medium").2.2 = [extractAudioCmd "clip.mp4" "out.flac" "flac" "medium"]
    ∧ "-vn" ∈ extractAudioCmd "clip.mp4" "out.flac" "flac" "medium"
    ∧ extractAudioCmd "clip.mp4" "out.flac" "flac" "medium" =
        ["ffmpeg", "-i", "clip.mp4", "-vn", "-y"]
          ++ audioCodecArgs "flac" (audioQualityPresets "medium") ++ ["out.flac"] :=
  dispatch_extractAudio_routing (constEnv 10) emptyFS "clip.mp4" "out.flac" "flac" "medium"
    (by decide)

end FormatConverter
